import Mathlib

/-!
Shallow embedding of the `POST /api/repair/save` pipeline of the emms
repository (latest revision of the handler in `api/index.ts`, the one with
the local upload try/catch, sheet-name discovery and the detailsAI column).

JavaScript strings are modelled as Lean `String`; a missing (`undefined`)
JSON field and the empty string are identified, since every use site tests
them with JavaScript truthiness (`x || d`), which does not distinguish them.
External calls (Drive folder search/create, file upload, Sheets metadata
read and append) are modelled by an `Env` oracle of `Except`-valued
results; the handler is a pure function of the oracle, the parsed request
and the optional uploaded file, returning the HTTP response together with
the externally observable effects (searches, creates, uploads, append
calls, unlink calls).
-/

/-- JavaScript `s || d` on strings: the empty string is the only falsy string. -/
def jsOr (s d : String) : String := if s = "" then d else s

/-- The single-quote character, U+0027. -/
def squote : Char := Char.ofNat 39

/-- The backslash character, U+005C. -/
def bslash : Char := Char.ofNat 92

/-- `replace(/'/g, "\\'")` on the character list: each single quote becomes
backslash-quote.  Used to escape the folder name inside the Drive query. -/
def escapeQuotesList : List Char → List Char
  | [] => []
  | c :: cs =>
    if c = squote then bslash :: squote :: escapeQuotesList cs
    else c :: escapeQuotesList cs

/-- `substationName.replace(/'/g, "\\'")`. -/
def escapeQuotes (s : String) : String := ⟨escapeQuotesList s.data⟩

/-- JavaScript `s.trim()`: whitespace removed from both ends. -/
def jsTrim (s : String) : String :=
  ⟨((s.data.dropWhile Char.isWhitespace).reverse.dropWhile Char.isWhitespace).reverse⟩

/-- The Thai word for "substation" that the handler strips from the front of
the substation name (`replace(/^สถานีไฟฟ้า/, "")`). -/
def thSubstationWord : String := "สถานีไฟฟ้า"

/-- `s.replace(/^สถานีไฟฟ้า/, "")`: drop the marker word when it starts the
string, otherwise leave the string unchanged. -/
def dropSubstationWord (s : String) : String :=
  if thSubstationWord.data.isPrefixOf s.data then
    ⟨s.data.drop thSubstationWord.data.length⟩
  else s

/-- `(data.substation || "Unknown").trim().replace(/^สถานีไฟฟ้า/, "").trim()`. -/
def normalizeSubstation (substation : String) : String :=
  jsTrim (dropSubstationWord (jsTrim (jsOr substation "Unknown")))

/-- The characters removed by the filename sanitizer regex
`/[\\\/:*?"<>|]/g`: backslash, slash, colon, asterisk, question mark,
double quote, less-than, greater-than, vertical bar. -/
def forbiddenChars : List Char :=
  [Char.ofNat 92, Char.ofNat 47, Char.ofNat 58, Char.ofNat 42, Char.ofNat 63,
   Char.ofNat 34, Char.ofNat 60, Char.ofNat 62, Char.ofNat 124]

/-- `s.replace(/[\\\/:*?"<>|]/g, "")`. -/
def stripForbidden (s : String) : String :=
  ⟨s.data.filter (fun c => !forbiddenChars.contains c)⟩

/-- `s.replace(/\//g, "-")`: every slash becomes a dash. -/
def slashToDash (s : String) : String :=
  ⟨s.data.map (fun c => if c = Char.ofNat 47 then Char.ofNat 45 else c)⟩

/-- `Buffer.from(s, 'latin1')`: each character contributes its code point
reduced mod 256 (all characters produced by latin1-decoding are below 256,
so on the handler's inputs this is exact). -/
def latin1Encode (s : String) : List Nat := s.data.map (fun c => c.toNat % 256)

/-- The Unicode replacement character U+FFFD. -/
def replChar : Char := Char.ofNat 0xFFFD

/-- A UTF-8 continuation byte: `10xxxxxx`. -/
def isCont (b : Nat) : Bool := 128 ≤ b && b < 192

/-- `buffer.toString('utf8')`: strict UTF-8 decoding; overlong forms,
surrogate code points and out-of-range sequences are rejected, an invalid
byte yields one replacement character. -/
def utf8DecodeAux : Nat → List Nat → List Char
  | 0, _ => []
  | _ + 1, [] => []
  | fuel + 1, b :: rest =>
    if b < 128 then Char.ofNat b :: utf8DecodeAux fuel rest
    else if b < 194 then replChar :: utf8DecodeAux fuel rest
    else if b < 224 then
      match rest with
      | b2 :: rest2 =>
        if isCont b2 then
          Char.ofNat ((b - 192) * 64 + (b2 - 128)) :: utf8DecodeAux fuel rest2
        else replChar :: utf8DecodeAux fuel (b2 :: rest2)
      | [] => [replChar]
    else if b < 240 then
      match rest with
      | b2 :: b3 :: rest3 =>
        if isCont b2 && isCont b3 && (b ≠ 224 || 160 ≤ b2) && (b ≠ 237 || b2 < 160) then
          Char.ofNat ((b - 224) * 4096 + (b2 - 128) * 64 + (b3 - 128)) :: utf8DecodeAux fuel rest3
        else replChar :: utf8DecodeAux fuel (b2 :: b3 :: rest3)
      | [b2] => replChar :: utf8DecodeAux fuel [b2]
      | [] => [replChar]
    else if b < 245 then
      match rest with
      | b2 :: b3 :: b4 :: rest4 =>
        if isCont b2 && isCont b3 && isCont b4 &&
            (b ≠ 240 || 144 ≤ b2) && (b ≠ 244 || b2 < 144) then
          Char.ofNat ((b - 240) * 262144 + (b2 - 128) * 4096 + (b3 - 128) * 64 + (b4 - 128))
            :: utf8DecodeAux fuel rest4
        else replChar :: utf8DecodeAux fuel (b2 :: b3 :: b4 :: rest4)
      | [b2, b3] => replChar :: utf8DecodeAux fuel [b2, b3]
      | [b2] => replChar :: utf8DecodeAux fuel [b2]
      | [] => [replChar]
    else replChar :: utf8DecodeAux fuel rest

/-- `buffer.toString('utf8')` proper: every step of the aux function
consumes at least one byte, so `l.length` units of fuel always suffice. -/
def utf8Decode (l : List Nat) : List Char := utf8DecodeAux l.length l

/-- `Buffer.from(s, 'latin1').toString('utf8')`: the fix for multer's
mis-decoding of UTF-8 filename bytes as latin1. -/
def fixEncoding (s : String) : String := ⟨utf8Decode (latin1Encode s)⟩

/-- Lines 257-266 of the handler: the uploaded file's name.
`cleanSubstation` strips the forbidden characters from the normalized
substation name; `cleanDocNumber` strips them from the docNumber and then
maps slash to dash; when `cleanDocNumber` is truthy the name is
`cleanDocNumber_cleanSubstation.pdf`, otherwise the re-decoded original
upload name. -/
def computeFileName (docNumber substationName originalname : String) : String :=
  let originalName := fixEncoding originalname
  let cleanSubstation := stripForbidden substationName
  let cleanDocNumber := slashToDash (stripForbidden docNumber)
  if cleanDocNumber = "" then originalName
  else cleanDocNumber ++ "_" ++ cleanSubstation ++ ".pdf"

/-- The parsed `data` field of the multipart request (`JSON.parse(req.body.data)`). -/
structure RepairReport where
  substation : String
  docNumber : String
  equipmentId : String
  details : String
  detailsAI : String
  responsible : String
  status : String
  signedDate : String
deriving DecidableEq, Repr

/-- The multer file object: original client name (latin1-decoded bytes),
declared mime type, temporary on-disk path. -/
structure UploadedFile where
  originalname : String
  mimetype : String
  path : String
deriving DecidableEq, Repr

/-- The three possible response shapes of the save endpoint. -/
inductive HttpResponse where
  /-- `200 OK` body `{success: true}`. -/
  | ok : HttpResponse
  /-- `200 OK` body `{success: true, warning}`. -/
  | okWarning (warning : String) : HttpResponse
  /-- `500` body `{error: message}`. -/
  | err (message : String) : HttpResponse
deriving DecidableEq, Repr

/-- Oracle for the external calls made during one request.  Each field is
the outcome the external service would give: `Except.error m` models the
call throwing with message `m`. -/
structure Env where
  /-- `getAuthenticatedClient()`. -/
  auth : Except String Unit
  /-- `sheets.spreadsheets.get`: on success, the title of the first sheet
  (`none` when the metadata carries no first-sheet title). -/
  metadata : Except String (Option String)
  /-- `drive.files.list` keyed by the (escaped) name in the query: the ids found. -/
  folderSearch : String → Except String (List String)
  /-- `drive.files.create` for a folder, keyed by the requested folder name. -/
  folderCreate : String → Except String String
  /-- `drive.files.create` for the file, keyed by file name and parent folder id:
  on success, the `webViewLink`. -/
  upload : String → String → Except String String
  /-- `sheets.spreadsheets.values.append`. -/
  appendRes : Except String Unit
  /-- `new Date().toLocaleString('th-TH', { timeZone: 'Asia/Bangkok' })` at
  append time: the server clock formatted in the Thai locale, Bangkok time. -/
  now : String

/-- `spreadsheet.data.sheets?.[0]?.properties?.title || "Sheet1"`. -/
def sheetNameOf (title : Option String) : String :=
  match title with
  | some t => jsOr t "Sheet1"
  | none => "Sheet1"

/-- ` (ไฟล์อัปโหลดไม่สำเร็จ: ${err.message})` — the uploadError fragment. -/
def mkUploadError (msg : String) : String :=
  " (ไฟล์อัปโหลดไม่สำเร็จ: " ++ msg ++ ")"

/-- The failure marker written to the file-reference column: `อัปโหลดล้มเหลว`. -/
def failMarker : String := "อัปโหลดล้มเหลว"

/-- Outcome of the `if (file) { try ... } catch ... finally ...` block:
final `fileUrl` and `uploadError` values plus the Drive calls issued. -/
structure FileBlockResult where
  fileUrl : String
  uploadError : String
  /-- names (after quote-escaping) queried by `drive.files.list`. -/
  searches : List String
  /-- folder names passed to `drive.files.create` for folders. -/
  folderCreates : List String
  /-- (file name, parent folder id) pairs passed to the file upload. -/
  uploads : List (String × String)
deriving DecidableEq, Repr

/-- The upload step (lines 257-281): compute the file name and stream the
file into `folderId`; a throw is recorded in `uploadError`. -/
def uploadStep (env : Env) (data : RepairReport) (f : UploadedFile)
    (substationName folderId : String) (searches creates : List String) :
    FileBlockResult :=
  let fileName := computeFileName data.docNumber substationName f.originalname
  match env.upload fileName folderId with
  | .error e => ⟨"", mkUploadError e, searches, creates, [(fileName, folderId)]⟩
  | .ok link => ⟨link, "", searches, creates, [(fileName, folderId)]⟩

/-- Lines 229-284: normalize the substation name, find or create the
per-substation folder, then upload.  The first throw of the sub-sequence is
caught and recorded in `uploadError`; calls issued before the throw remain
in the effect lists. -/
def fileBlock (env : Env) (data : RepairReport) (f : UploadedFile) : FileBlockResult :=
  let substationName := normalizeSubstation data.substation
  let escaped := escapeQuotes substationName
  match env.folderSearch escaped with
  | .error e => ⟨"", mkUploadError e, [escaped], [], []⟩
  | .ok [] =>
    match env.folderCreate substationName with
    | .error e => ⟨"", mkUploadError e, [escaped], [substationName], []⟩
    | .ok nid => uploadStep env data f substationName nid [escaped] [substationName]
  | .ok (fid :: _) => uploadStep env data f substationName fid [escaped] []

/-- `fileUrl || (uploadError ? "อัปโหลดล้มเหลว" : "")` — the file-reference
cell of the appended row. -/
def fileRefCell (fileUrl uploadError : String) : String :=
  jsOr fileUrl (if uploadError = "" then "" else failMarker)

/-- Lines 292-303: the row passed to `values.append`, in source order; the
last cell is `fileUrl || (uploadError ? "อัปโหลดล้มเหลว" : "")`. -/
def mkRow (now : String) (data : RepairReport) (fileUrl uploadError : String) :
    List String :=
  [now, data.substation, data.docNumber, data.equipmentId, data.details,
   data.detailsAI, data.responsible, data.status, data.signedDate,
   fileRefCell fileUrl uploadError]

/-- The handler's response together with every externally observable effect. -/
structure SaveResult where
  response : HttpResponse
  searches : List String
  folderCreates : List String
  uploads : List (String × String)
  /-- (sheet name, row) pairs passed to `values.append` (attempted, whether
  or not the append succeeded). -/
  appendCalls : List (String × List String)
  /-- temporary paths passed to `fs.unlinkSync`. -/
  unlinked : List String
deriving DecidableEq, Repr

/-- The whole `POST /api/repair/save` handler (lines 210-321): auth, sheet
metadata read, optional file block with its local catch and `finally`
unlink, row construction, append, and the response; any throw outside the
file block reaches the outer catch and becomes `500 {error: message}`. -/
def saveHandler (env : Env) (data : RepairReport) (file : Option UploadedFile) :
    SaveResult :=
  match env.auth with
  | .error e => ⟨.err e, [], [], [], [], []⟩
  | .ok _ =>
    match env.metadata with
    | .error e => ⟨.err e, [], [], [], [], []⟩
    | .ok title =>
      let sheetName := sheetNameOf title
      match file with
      | none =>
        let row := mkRow env.now data "" ""
        match env.appendRes with
        | .error e => ⟨.err e, [], [], [], [(sheetName, row)], []⟩
        | .ok _ => ⟨.ok, [], [], [], [(sheetName, row)], []⟩
      | some f =>
        let fb := fileBlock env data f
        let row := mkRow env.now data fb.fileUrl fb.uploadError
        match env.appendRes with
        | .error e =>
          ⟨.err e, fb.searches, fb.folderCreates, fb.uploads, [(sheetName, row)], [f.path]⟩
        | .ok _ =>
          if fb.uploadError = "" then
            ⟨.ok, fb.searches, fb.folderCreates, fb.uploads, [(sheetName, row)], [f.path]⟩
          else
            ⟨.okWarning ("บันทึกข้อมูลลงตารางแล้ว แต่" ++ fb.uploadError),
             fb.searches, fb.folderCreates, fb.uploads, [(sheetName, row)], [f.path]⟩

/-- The final value of the handler's `fileUrl` variable: empty when no file
is attached, otherwise whatever the file block produced. -/
def fileUrlOf (env : Env) (data : RepairReport) : Option UploadedFile → String
  | none => ""
  | some f => (fileBlock env data f).fileUrl

/-- The final value of the handler's `uploadError` variable: empty when no
file is attached, otherwise whatever the file block produced. -/
def uploadErrorOf (env : Env) (data : RepairReport) : Option UploadedFile → String
  | none => ""
  | some f => (fileBlock env data f).uploadError

/-- Whether a response is one of the two HTTP-200 success shapes. -/
def isSuccess : HttpResponse → Bool
  | .ok => true
  | .okWarning _ => true
  | .err _ => false

/-! ### Basic lemmas about the string helpers and the oracle reductions -/

theorem jsOr_empty (d : String) : jsOr "" d = d := by simp [jsOr]

theorem jsOr_of_ne (s d : String) (h : s ≠ "") : jsOr s d = s := by simp [jsOr, h]

theorem mkUploadError_ne_empty (e : String) : mkUploadError e ≠ "" := by
  intro h
  have hl := congrArg String.length h
  rw [mkUploadError, String.length_append, String.length_append] at hl
  have h1 : 0 < (" (ไฟล์อัปโหลดไม่สำเร็จ: " : String).length := by decide
  have h0 : ("" : String).length = 0 := rfl
  omega

theorem saveHandler_auth_err (env : Env) (data : RepairReport)
    (file : Option UploadedFile) (e : String) (ha : env.auth = .error e) :
    saveHandler env data file = ⟨.err e, [], [], [], [], []⟩ := by
  unfold saveHandler
  rw [ha]

theorem saveHandler_metadata_err (env : Env) (data : RepairReport)
    (file : Option UploadedFile) (e : String)
    (ha : env.auth = .ok ()) (hm : env.metadata = .error e) :
    saveHandler env data file = ⟨.err e, [], [], [], [], []⟩ := by
  unfold saveHandler
  rw [ha, hm]

theorem saveHandler_none_eq (env : Env) (data : RepairReport) (title : Option String)
    (ha : env.auth = .ok ()) (hm : env.metadata = .ok title) :
    saveHandler env data none =
      (match env.appendRes with
       | .error e =>
         ⟨.err e, [], [], [], [(sheetNameOf title, mkRow env.now data "" "")], []⟩
       | .ok _ =>
         ⟨.ok, [], [], [], [(sheetNameOf title, mkRow env.now data "" "")], []⟩) := by
  unfold saveHandler
  rw [ha, hm]

theorem saveHandler_some_eq (env : Env) (data : RepairReport) (f : UploadedFile)
    (title : Option String)
    (ha : env.auth = .ok ()) (hm : env.metadata = .ok title) :
    saveHandler env data (some f) =
      (let fb := fileBlock env data f
       let row := mkRow env.now data fb.fileUrl fb.uploadError
       match env.appendRes with
       | .error e =>
         ⟨.err e, fb.searches, fb.folderCreates, fb.uploads,
          [(sheetNameOf title, row)], [f.path]⟩
       | .ok _ =>
         if fb.uploadError = "" then
           ⟨.ok, fb.searches, fb.folderCreates, fb.uploads,
            [(sheetNameOf title, row)], [f.path]⟩
         else
           ⟨.okWarning ("บันทึกข้อมูลลงตารางแล้ว แต่" ++ fb.uploadError),
            fb.searches, fb.folderCreates, fb.uploads,
            [(sheetNameOf title, row)], [f.path]⟩) := by
  unfold saveHandler
  rw [ha, hm]

theorem uploadStep_err (env : Env) (data : RepairReport) (f : UploadedFile)
    (substationName folderId e : String) (searches creates : List String)
    (h : env.upload (computeFileName data.docNumber substationName f.originalname)
          folderId = .error e) :
    uploadStep env data f substationName folderId searches creates =
      ⟨"", mkUploadError e, searches, creates,
       [(computeFileName data.docNumber substationName f.originalname, folderId)]⟩ := by
  unfold uploadStep
  dsimp only
  rw [h]

theorem uploadStep_ok (env : Env) (data : RepairReport) (f : UploadedFile)
    (substationName folderId link : String) (searches creates : List String)
    (h : env.upload (computeFileName data.docNumber substationName f.originalname)
          folderId = .ok link) :
    uploadStep env data f substationName folderId searches creates =
      ⟨link, "", searches, creates,
       [(computeFileName data.docNumber substationName f.originalname, folderId)]⟩ := by
  unfold uploadStep
  dsimp only
  rw [h]

theorem fileBlock_search_err (env : Env) (data : RepairReport) (f : UploadedFile)
    (e : String)
    (h : env.folderSearch (escapeQuotes (normalizeSubstation data.substation)) =
          .error e) :
    fileBlock env data f =
      ⟨"", mkUploadError e,
       [escapeQuotes (normalizeSubstation data.substation)], [], []⟩ := by
  unfold fileBlock
  dsimp only
  rw [h]

theorem fileBlock_create_err (env : Env) (data : RepairReport) (f : UploadedFile)
    (e : String)
    (h1 : env.folderSearch (escapeQuotes (normalizeSubstation data.substation)) =
          .ok [])
    (h2 : env.folderCreate (normalizeSubstation data.substation) = .error e) :
    fileBlock env data f =
      ⟨"", mkUploadError e,
       [escapeQuotes (normalizeSubstation data.substation)],
       [normalizeSubstation data.substation], []⟩ := by
  unfold fileBlock
  dsimp only
  rw [h1, h2]

theorem fileBlock_created (env : Env) (data : RepairReport) (f : UploadedFile)
    (nid : String)
    (h1 : env.folderSearch (escapeQuotes (normalizeSubstation data.substation)) =
          .ok [])
    (h2 : env.folderCreate (normalizeSubstation data.substation) = .ok nid) :
    fileBlock env data f =
      uploadStep env data f (normalizeSubstation data.substation) nid
        [escapeQuotes (normalizeSubstation data.substation)]
        [normalizeSubstation data.substation] := by
  unfold fileBlock
  dsimp only
  rw [h1, h2]

theorem fileBlock_found (env : Env) (data : RepairReport) (f : UploadedFile)
    (fid : String) (ids : List String)
    (h : env.folderSearch (escapeQuotes (normalizeSubstation data.substation)) =
          .ok (fid :: ids)) :
    fileBlock env data f =
      uploadStep env data f (normalizeSubstation data.substation) fid
        [escapeQuotes (normalizeSubstation data.substation)] [] := by
  unfold fileBlock
  dsimp only
  rw [h]

theorem uploadStep_searches (env : Env) (data : RepairReport) (f : UploadedFile)
    (substationName folderId : String) (searches creates : List String) :
    (uploadStep env data f substationName folderId searches creates).searches =
      searches := by
  unfold uploadStep
  dsimp only
  cases h : env.upload (computeFileName data.docNumber substationName f.originalname)
      folderId <;> rfl

theorem uploadStep_creates (env : Env) (data : RepairReport) (f : UploadedFile)
    (substationName folderId : String) (searches creates : List String) :
    (uploadStep env data f substationName folderId searches creates).folderCreates =
      creates := by
  unfold uploadStep
  dsimp only
  cases h : env.upload (computeFileName data.docNumber substationName f.originalname)
      folderId <;> rfl

theorem fileBlock_searches_eq (env : Env) (data : RepairReport) (f : UploadedFile) :
    (fileBlock env data f).searches =
      [escapeQuotes (normalizeSubstation data.substation)] := by
  cases h : env.folderSearch (escapeQuotes (normalizeSubstation data.substation)) with
  | error e => rw [fileBlock_search_err env data f e h]
  | ok ids =>
    cases ids with
    | nil =>
      cases h2 : env.folderCreate (normalizeSubstation data.substation) with
      | error e => rw [fileBlock_create_err env data f e h h2]
      | ok nid => rw [fileBlock_created env data f nid h h2, uploadStep_searches]
    | cons fid rest =>
      rw [fileBlock_found env data f fid rest h, uploadStep_searches]

theorem fileBlock_creates_sub (env : Env) (data : RepairReport) (f : UploadedFile) :
    ∀ n ∈ (fileBlock env data f).folderCreates,
      n = normalizeSubstation data.substation := by
  cases h : env.folderSearch (escapeQuotes (normalizeSubstation data.substation)) with
  | error e => rw [fileBlock_search_err env data f e h]; simp
  | ok ids =>
    cases ids with
    | nil =>
      cases h2 : env.folderCreate (normalizeSubstation data.substation) with
      | error e => rw [fileBlock_create_err env data f e h h2]; simp
      | ok nid => rw [fileBlock_created env data f nid h h2, uploadStep_creates]; simp
    | cons fid rest =>
      rw [fileBlock_found env data f fid rest h, uploadStep_creates]; simp

/-! ### Claims -/

/-- C1: for a report with docNumber `123/2567` the code does NOT produce
`123-2567_...`: the sanitizer regex strips the slash before the slash-to-dash
replacement can see it, so the dash substitution never happens and the two
parts of the number are merged.  The resulting name still contains none of
the forbidden characters. -/
theorem C1_docNumber_slash_removed_not_dashed :
    computeFileName "123/2567" "สมุทรสาคร 10" "scan.jpg" =
      "1232567_สมุทรสาคร 10.pdf"
    ∧ computeFileName "123/2567" "สมุทรสาคร 10" "scan.jpg" ≠
      "123-2567_สมุทรสาคร 10.pdf"
    ∧ (computeFileName "123/2567" "สมุทรสาคร 10" "scan.jpg").data.all
        (fun c => !forbiddenChars.contains c) = true := by
  refine ⟨by decide, by decide, by decide⟩

/-- C3 counterexample: a request with an attached file whose spreadsheet
metadata read throws exits with the hard-failure response, and no unlink of
the temporary file is ever performed — the claim that the temp file is
deleted on every exit path (hard failure included) is false. -/
theorem C3_no_unlink_on_early_hard_failure :
    (saveHandler
      ⟨Except.ok (), Except.error "metadata read failed",
       fun _ => Except.ok [], fun _ => Except.ok "nid",
       fun _ _ => Except.ok "link", Except.ok (), "ts"⟩
      ⟨"สถานีไฟฟ้าทดสอบ", "55/2568", "EQ", "D", "DAI", "R", "S", "SD"⟩
      (some ⟨"scan.pdf", "application/pdf", "/tmp/upload-1"⟩)).response =
      HttpResponse.err "metadata read failed"
    ∧ (saveHandler
      ⟨Except.ok (), Except.error "metadata read failed",
       fun _ => Except.ok [], fun _ => Except.ok "nid",
       fun _ _ => Except.ok "link", Except.ok (), "ts"⟩
      ⟨"สถานีไฟฟ้าทดสอบ", "55/2568", "EQ", "D", "DAI", "R", "S", "SD"⟩
      (some ⟨"scan.pdf", "application/pdf", "/tmp/upload-1"⟩)).unlinked = [] := by
  exact ⟨rfl, rfl⟩

/-- C3 amended: once the request reaches the file-handling block (auth and
metadata read succeeded), the temporary file is unlinked exactly once on
every path — upload success, upload failure, and append failure alike; but
a hard failure before that block (auth or metadata read) exits without
deleting the file. -/
theorem C3_unlink_on_every_file_block_path (env : Env) (data : RepairReport)
    (f : UploadedFile) (title : Option String)
    (ha : env.auth = .ok ()) (hm : env.metadata = .ok title) :
    (saveHandler env data (some f)).unlinked = [f.path] := by
  rw [saveHandler_some_eq env data f title ha hm]
  dsimp only
  cases h : env.appendRes with
  | error e => rfl
  | ok u => split <;> first | rfl | (split <;> rfl)

/-- Witness for C3's amended theorem: a concrete request whose upload fails
still unlinks its temporary file. -/
theorem C3_unlink_on_every_file_block_path_witness :
    (saveHandler
      ⟨Except.ok (), Except.ok (some "Sheet1"),
       fun _ => Except.ok ["fid"], fun _ => Except.ok "nid",
       fun _ _ => Except.error "quota exceeded", Except.ok (), "ts"⟩
      ⟨"สถานีไฟฟ้าทดสอบ", "55/2568", "EQ", "D", "DAI", "R", "S", "SD"⟩
      (some ⟨"scan.pdf", "application/pdf", "/tmp/upload-2"⟩)).unlinked =
      ["/tmp/upload-2"] :=
  C3_unlink_on_every_file_block_path _ _ _ (some "Sheet1") rfl rfl

/-- C4: a save request with no attached file appends a row whose
file-reference cell (the 10th) is the empty string, and responds with the
plain success shape. -/
theorem C4_no_file_plain_success (env : Env) (data : RepairReport)
    (title : Option String)
    (ha : env.auth = .ok ()) (hm : env.metadata = .ok title)
    (hap : env.appendRes = .ok ()) :
    (saveHandler env data none).response = HttpResponse.ok
    ∧ (saveHandler env data none).appendCalls =
        [(sheetNameOf title, mkRow env.now data "" "")]
    ∧ (mkRow env.now data "" "")[9]? = some "" := by
  rw [saveHandler_none_eq env data title ha hm, hap]
  refine ⟨rfl, rfl, ?_⟩
  simp [mkRow, fileRefCell, jsOr]

/-- Witness for C4 at a concrete request with every external call succeeding. -/
theorem C4_no_file_plain_success_witness :
    (saveHandler
      ⟨Except.ok (), Except.ok (some "ใบแจ้งซ่อม"),
       fun _ => Except.ok [], fun _ => Except.ok "nid",
       fun _ _ => Except.ok "link", Except.ok (), "8/10/2568 10:00:00"⟩
      ⟨"สถานีไฟฟ้าบางพลี", "123", "EQ1", "รายละเอียด", "ทางการ", "ช่าง",
       "ดำเนินการแล้ว", "1/10/2568"⟩ none).response = HttpResponse.ok :=
  (C4_no_file_plain_success _ _ (some "ใบแจ้งซ่อม") rfl rfl rfl).1

theorem uploadStep_uploads (env : Env) (data : RepairReport) (f : UploadedFile)
    (substationName folderId : String) (searches creates : List String) :
    (uploadStep env data f substationName folderId searches creates).uploads =
      [(computeFileName data.docNumber substationName f.originalname, folderId)] := by
  unfold uploadStep
  dsimp only
  cases h : env.upload (computeFileName data.docNumber substationName f.originalname)
      folderId <;> rfl

/-- C2: when a file is attached and any step of the folder-resolve /
upload sub-sequence throws (folder search, folder create, or the upload
itself) while the append succeeds, the handler still appends the row with
the failure marker in the file-reference cell, unlinks the temp file, and
responds 200 success-with-warning, the warning embedding the underlying
error message; the upload failure never yields a 500. -/
theorem C2_upload_failure_contained (env : Env) (data : RepairReport)
    (f : UploadedFile) (title : Option String) (e : String)
    (ha : env.auth = .ok ()) (hm : env.metadata = .ok title)
    (hap : env.appendRes = .ok ())
    (hfail :
      env.folderSearch (escapeQuotes (normalizeSubstation data.substation)) =
        .error e
      ∨ (env.folderSearch (escapeQuotes (normalizeSubstation data.substation)) =
          .ok []
        ∧ env.folderCreate (normalizeSubstation data.substation) = .error e)
      ∨ (∃ fid ids,
          env.folderSearch (escapeQuotes (normalizeSubstation data.substation)) =
            .ok (fid :: ids)
          ∧ env.upload (computeFileName data.docNumber
              (normalizeSubstation data.substation) f.originalname) fid = .error e)
      ∨ (env.folderSearch (escapeQuotes (normalizeSubstation data.substation)) =
          .ok []
        ∧ ∃ fid, env.folderCreate (normalizeSubstation data.substation) = .ok fid
        ∧ env.upload (computeFileName data.docNumber
            (normalizeSubstation data.substation) f.originalname) fid = .error e)) :
    (saveHandler env data (some f)).response =
      HttpResponse.okWarning ("บันทึกข้อมูลลงตารางแล้ว แต่" ++ mkUploadError e)
    ∧ (saveHandler env data (some f)).appendCalls =
        [(sheetNameOf title, mkRow env.now data "" (mkUploadError e))]
    ∧ (mkRow env.now data "" (mkUploadError e))[9]? = some failMarker
    ∧ (saveHandler env data (some f)).unlinked = [f.path] := by
  have hfb : (fileBlock env data f).fileUrl = ""
      ∧ (fileBlock env data f).uploadError = mkUploadError e := by
    rcases hfail with h | ⟨h1, h2⟩ | ⟨fid, ids, h1, h2⟩ | ⟨h1, fid, h2, h3⟩
    · rw [fileBlock_search_err env data f e h]
      exact ⟨rfl, rfl⟩
    · rw [fileBlock_create_err env data f e h1 h2]
      exact ⟨rfl, rfl⟩
    · rw [fileBlock_found env data f fid ids h1,
        uploadStep_err env data f _ fid e _ _ h2]
      exact ⟨rfl, rfl⟩
    · rw [fileBlock_created env data f fid h1 h2,
        uploadStep_err env data f _ fid e _ _ h3]
      exact ⟨rfl, rfl⟩
  rw [saveHandler_some_eq env data f title ha hm]
  dsimp only
  rw [hap, hfb.1, hfb.2, if_neg (mkUploadError_ne_empty e)]
  refine ⟨rfl, rfl, ?_, rfl⟩
  simp [mkRow, fileRefCell, jsOr, mkUploadError_ne_empty e]

/-- Witness for C2: a concrete request whose Drive upload call fails with
`quota exceeded` while everything else succeeds. -/
theorem C2_upload_failure_contained_witness :
    (saveHandler
      ⟨Except.ok (), Except.ok (some "Sheet1"),
       fun _ => Except.ok ["fid"], fun _ => Except.ok "nid",
       fun _ _ => Except.error "quota exceeded", Except.ok (), "ts"⟩
      ⟨"สถานีไฟฟ้าทดสอบ", "55/2568", "EQ", "D", "DAI", "R", "S", "SD"⟩
      (some ⟨"scan.pdf", "application/pdf", "/tmp/upload-3"⟩)).response =
      HttpResponse.okWarning
        ("บันทึกข้อมูลลงตารางแล้ว แต่" ++ mkUploadError "quota exceeded")
    ∧ (saveHandler
      ⟨Except.ok (), Except.ok (some "Sheet1"),
       fun _ => Except.ok ["fid"], fun _ => Except.ok "nid",
       fun _ _ => Except.error "quota exceeded", Except.ok (), "ts"⟩
      ⟨"สถานีไฟฟ้าทดสอบ", "55/2568", "EQ", "D", "DAI", "R", "S", "SD"⟩
      (some ⟨"scan.pdf", "application/pdf", "/tmp/upload-3"⟩)).unlinked =
      ["/tmp/upload-3"] := by
  have h := C2_upload_failure_contained
    ⟨Except.ok (), Except.ok (some "Sheet1"),
     fun _ => Except.ok ["fid"], fun _ => Except.ok "nid",
     fun _ _ => Except.error "quota exceeded", Except.ok (), "ts"⟩
    ⟨"สถานีไฟฟ้าทดสอบ", "55/2568", "EQ", "D", "DAI", "R", "S", "SD"⟩
    ⟨"scan.pdf", "application/pdf", "/tmp/upload-3"⟩
    (some "Sheet1") "quota exceeded" rfl rfl rfl
    (Or.inr (Or.inr (Or.inl ⟨"fid", [], rfl, rfl⟩)))
  exact ⟨h.1, h.2.2.2⟩

/-- C5: the folder resolver always queries the store once, using the
quote-escaped normalized (trimmed, prefix-stripped) substation name; if the
search returns at least one id, no folder create is issued and the first id
found is used as the upload parent; if it returns none, exactly one create
is issued, named with the normalized group key (not the raw input). -/
theorem C5_folder_resolve_or_create (env : Env) (data : RepairReport)
    (f : UploadedFile) :
    (fileBlock env data f).searches =
      [escapeQuotes (normalizeSubstation data.substation)]
    ∧ (∀ fid ids,
        env.folderSearch (escapeQuotes (normalizeSubstation data.substation)) =
          .ok (fid :: ids) →
        (fileBlock env data f).folderCreates = []
        ∧ (fileBlock env data f).uploads =
            [(computeFileName data.docNumber (normalizeSubstation data.substation)
                f.originalname, fid)])
    ∧ (env.folderSearch (escapeQuotes (normalizeSubstation data.substation)) =
        .ok [] →
        (fileBlock env data f).folderCreates =
          [normalizeSubstation data.substation]) := by
  refine ⟨fileBlock_searches_eq env data f, ?_, ?_⟩
  · intro fid ids h
    rw [fileBlock_found env data f fid ids h]
    exact ⟨uploadStep_creates env data f _ fid _ _,
      uploadStep_uploads env data f _ fid _ _⟩
  · intro h
    cases h2 : env.folderCreate (normalizeSubstation data.substation) with
    | error e => rw [fileBlock_create_err env data f e h h2]
    | ok nid =>
      rw [fileBlock_created env data f nid h h2,
        uploadStep_creates env data f _ nid _ _]

/-- Witness for C5: with an existing folder no create is issued; with no
matching folder exactly one create is issued under the normalized name
(`สถานีไฟฟ้าทดสอบ` becomes `ทดสอบ`). -/
theorem C5_folder_resolve_or_create_witness :
    (fileBlock
      ⟨Except.ok (), Except.ok (some "Sheet1"),
       fun _ => Except.ok ["fid0"], fun _ => Except.ok "nid",
       fun _ _ => Except.ok "link", Except.ok (), "ts"⟩
      ⟨"สถานีไฟฟ้าทดสอบ", "1", "EQ", "D", "DAI", "R", "S", "SD"⟩
      ⟨"scan.pdf", "application/pdf", "/tmp/u"⟩).folderCreates = []
    ∧ (fileBlock
      ⟨Except.ok (), Except.ok (some "Sheet1"),
       fun _ => Except.ok [], fun _ => Except.ok "nid",
       fun _ _ => Except.ok "link", Except.ok (), "ts"⟩
      ⟨"สถานีไฟฟ้าทดสอบ", "1", "EQ", "D", "DAI", "R", "S", "SD"⟩
      ⟨"scan.pdf", "application/pdf", "/tmp/u"⟩).folderCreates = ["ทดสอบ"] := by
  refine ⟨((C5_folder_resolve_or_create _ _ _).2.1 "fid0" [] rfl).1, ?_⟩
  exact ((C5_folder_resolve_or_create _ _ _).2.2 rfl).trans (by decide)

/-- C6 counterexample: docNumber `" "` is empty after trimming, yet with a
file attached the computed filename is `" _S.pdf"` (the whitespace-only
docNumber survives sanitization and is truthy), not the re-decoded original
upload name the claim requires. -/
theorem C6_trim_condition_cex :
    jsTrim " " = ""
    ∧ computeFileName " " "S" "Report.jpg" = " _S.pdf"
    ∧ computeFileName " " "S" "Report.jpg" ≠ fixEncoding "Report.jpg" := by
  refine ⟨by decide, by decide, by decide⟩

/-- C6 amended: whenever the docNumber is empty after sanitization
(stripping the forbidden characters; in particular when it is absent or
empty), the computed filename is the original upload name re-decoded from
latin1 bytes as UTF-8. -/
theorem C6_fallback_redecodes_original
    (docNumber substationName originalname : String)
    (h : slashToDash (stripForbidden docNumber) = "") :
    computeFileName docNumber substationName originalname =
      fixEncoding originalname := by
  simp [computeFileName, h]

/-- Witness for C6's amended theorem: an empty docNumber falls back to the
original name, recovering the Thai characters `กข` from their
latin1-corrupted byte form E0 B8 81 E0 B8 82. -/
theorem C6_fallback_redecodes_original_witness :
    slashToDash (stripForbidden "") = ""
    ∧ computeFileName "" "X"
        (String.mk [Char.ofNat 224, Char.ofNat 184, Char.ofNat 129,
          Char.ofNat 224, Char.ofNat 184, Char.ofNat 130]) = "กข" :=
  ⟨by decide,
   (C6_fallback_redecodes_original "" "X"
      (String.mk [Char.ofNat 224, Char.ofNat 184, Char.ofNat 129,
        Char.ofNat 224, Char.ofNat 184, Char.ofNat 130])
      (by decide)).trans (by decide)⟩

theorem saveHandler_appendCalls_none (env : Env) (data : RepairReport)
    (title : Option String)
    (ha : env.auth = .ok ()) (hm : env.metadata = .ok title) :
    (saveHandler env data none).appendCalls =
      [(sheetNameOf title, mkRow env.now data "" "")] := by
  rw [saveHandler_none_eq env data title ha hm]
  cases h : env.appendRes <;> rfl

theorem saveHandler_appendCalls_some (env : Env) (data : RepairReport)
    (f : UploadedFile) (title : Option String)
    (ha : env.auth = .ok ()) (hm : env.metadata = .ok title) :
    (saveHandler env data (some f)).appendCalls =
      [(sheetNameOf title,
        mkRow env.now data (fileBlock env data f).fileUrl
          (fileBlock env data f).uploadError)] := by
  rw [saveHandler_some_eq env data f title ha hm]
  dsimp only
  cases h : env.appendRes with
  | error e => rfl
  | ok u => by_cases hue : (fileBlock env data f).uploadError = "" <;> simp [hue]

/-- C7: whenever the spreadsheet metadata read returns a (non-empty) first
sheet title `t`, the single append call issued by the handler targets sheet
`t` — the name comes from the metadata, not from a fixed literal, so a
renamed first tab is still targeted. -/
theorem C7_sheet_name_discovered (env : Env) (data : RepairReport)
    (file : Option UploadedFile) (t : String)
    (ha : env.auth = .ok ()) (hm : env.metadata = .ok (some t)) (ht : t ≠ "") :
    (saveHandler env data file).appendCalls.map Prod.fst = [t] := by
  have hs : sheetNameOf (some t) = t := by simp [sheetNameOf, jsOr, ht]
  cases file with
  | none => rw [saveHandler_appendCalls_none env data (some t) ha hm, hs]; rfl
  | some f => rw [saveHandler_appendCalls_some env data f (some t) ha hm, hs]; rfl

/-- Witness for C7: with the first tab renamed to `งานซ่อม 2568`, the append
call targets that tab. -/
theorem C7_sheet_name_discovered_witness :
    (saveHandler
      ⟨Except.ok (), Except.ok (some "งานซ่อม 2568"),
       fun _ => Except.ok ["fid"], fun _ => Except.ok "nid",
       fun _ _ => Except.ok "link", Except.ok (), "ts"⟩
      ⟨"สถานีไฟฟ้าทดสอบ", "55/2568", "EQ", "D", "DAI", "R", "S", "SD"⟩
      none).appendCalls.map Prod.fst = ["งานซ่อม 2568"] :=
  C7_sheet_name_discovered _ _ none "งานซ่อม 2568" rfl rfl (by decide)

/-- C8: the single appended row is exactly the ordered positional sequence
[timestamp, substation, docNumber, equipmentId, details, detailsAI,
responsible, status, signedDate, file-reference]; the timestamp is the
server-side clock value of the environment (Thai locale, Asia/Bangkok),
not any client-supplied field, and with no file attached the file-reference
cell is empty. -/
theorem C8_row_order_server_timestamp (env : Env) (data : RepairReport)
    (file : Option UploadedFile) (title : Option String)
    (ha : env.auth = .ok ()) (hm : env.metadata = .ok title) :
    (saveHandler env data file).appendCalls =
      [(sheetNameOf title,
        [env.now, data.substation, data.docNumber, data.equipmentId,
         data.details, data.detailsAI, data.responsible, data.status,
         data.signedDate,
         fileRefCell (fileUrlOf env data file) (uploadErrorOf env data file)])]
    ∧ (file = none →
        fileRefCell (fileUrlOf env data file) (uploadErrorOf env data file) = "") := by
  cases file with
  | none =>
    refine ⟨?_, fun _ => by simp [fileRefCell, fileUrlOf, uploadErrorOf, jsOr]⟩
    rw [saveHandler_appendCalls_none env data title ha hm]
    rfl
  | some f =>
    refine ⟨?_, fun h => by cases h⟩
    rw [saveHandler_appendCalls_some env data f title ha hm]
    rfl

/-- Witness for C8 at a concrete request with no file. -/
theorem C8_row_order_server_timestamp_witness :
    (saveHandler
      ⟨Except.ok (), Except.ok (some "Sheet1"),
       fun _ => Except.ok [], fun _ => Except.ok "nid",
       fun _ _ => Except.ok "link", Except.ok (), "8/10/2568 10:00:00"⟩
      ⟨"สถานีไฟฟ้าบางพลี", "55/2568", "EQ9", "สายขาด", "สายตัวนำชำรุด", "ช่างเอก",
       "กำลังดำเนินการ", "1/10/2568"⟩ none).appendCalls =
      [("Sheet1",
        ["8/10/2568 10:00:00", "สถานีไฟฟ้าบางพลี", "55/2568", "EQ9", "สายขาด",
         "สายตัวนำชำรุด", "ช่างเอก", "กำลังดำเนินการ", "1/10/2568", ""])] := by
  have h := C8_row_order_server_timestamp
    ⟨Except.ok (), Except.ok (some "Sheet1"),
     fun _ => Except.ok [], fun _ => Except.ok "nid",
     fun _ _ => Except.ok "link", Except.ok (), "8/10/2568 10:00:00"⟩
    ⟨"สถานีไฟฟ้าบางพลี", "55/2568", "EQ9", "สายขาด", "สายตัวนำชำรุด", "ช่างเอก",
     "กำลังดำเนินการ", "1/10/2568"⟩ none (some "Sheet1") rfl rfl
  rw [h.1, h.2 rfl]
  rfl

/-- C9: the hard-failure response 500 with the verbatim underlying message
arises exactly from an auth/config failure, a spreadsheet metadata-read
failure, or an append failure; whenever auth, metadata and append all
succeed the response is a 200 success shape (plain or with warning),
whatever the upload sub-sequence did. -/
theorem C9_hard_failure_sources (env : Env) (data : RepairReport)
    (file : Option UploadedFile) :
    (∀ e, env.auth = .error e →
      (saveHandler env data file).response = HttpResponse.err e)
    ∧ (∀ e, env.auth = .ok () → env.metadata = .error e →
      (saveHandler env data file).response = HttpResponse.err e)
    ∧ (∀ e title, env.auth = .ok () → env.metadata = .ok title →
      env.appendRes = .error e →
      (saveHandler env data file).response = HttpResponse.err e)
    ∧ (∀ title, env.auth = .ok () → env.metadata = .ok title →
      env.appendRes = .ok () →
      isSuccess (saveHandler env data file).response = true) := by
  refine ⟨?_, ?_, ?_, ?_⟩
  · intro e h
    rw [saveHandler_auth_err env data file e h]
  · intro e h1 h2
    rw [saveHandler_metadata_err env data file e h1 h2]
  · intro e title h1 h2 h3
    cases file with
    | none =>
      rw [saveHandler_none_eq env data title h1 h2, h3]
    | some f =>
      rw [saveHandler_some_eq env data f title h1 h2]
      dsimp only
      rw [h3]
  · intro title h1 h2 h3
    cases file with
    | none =>
      rw [saveHandler_none_eq env data title h1 h2, h3]
      rfl
    | some f =>
      rw [saveHandler_some_eq env data f title h1 h2]
      dsimp only
      rw [h3]
      by_cases hue : (fileBlock env data f).uploadError = "" <;>
        simp [hue, isSuccess]

/-- Witness for C9: an append failure alone yields the verbatim 500, and a
request with a failing upload but successful append yields a 200 shape. -/
theorem C9_hard_failure_sources_witness :
    (saveHandler
      ⟨Except.ok (), Except.ok (some "Sheet1"),
       fun _ => Except.ok [], fun _ => Except.ok "nid",
       fun _ _ => Except.ok "link", Except.error "append failed", "ts"⟩
      ⟨"ส1", "1", "EQ", "D", "DAI", "R", "S", "SD"⟩ none).response =
      HttpResponse.err "append failed"
    ∧ isSuccess (saveHandler
      ⟨Except.ok (), Except.ok (some "Sheet1"),
       fun _ => Except.ok ["fid"], fun _ => Except.ok "nid",
       fun _ _ => Except.error "quota", Except.ok (), "ts"⟩
      ⟨"ส1", "1", "EQ", "D", "DAI", "R", "S", "SD"⟩
      (some ⟨"a.pdf", "application/pdf", "/tmp/u9"⟩)).response = true :=
  ⟨(C9_hard_failure_sources _ _ none).2.2.1 "append failed" (some "Sheet1")
      rfl rfl rfl,
   (C9_hard_failure_sources _ _ (some ⟨"a.pdf", "application/pdf", "/tmp/u9"⟩)).2.2.2
      (some "Sheet1") rfl rfl rfl⟩

/-- C10: when the substation field is missing/empty, the group key becomes
the literal `Unknown`: the folder query is issued for the name `Unknown`
and any folder create names the folder `Unknown`, which is non-empty. -/
theorem C10_default_unknown_group_key (env : Env) (data : RepairReport)
    (f : UploadedFile) (h : data.substation = "") :
    normalizeSubstation data.substation = "Unknown"
    ∧ (fileBlock env data f).searches = ["Unknown"]
    ∧ (∀ n ∈ (fileBlock env data f).folderCreates, n = "Unknown")
    ∧ ("Unknown" : String) ≠ "" := by
  have h1 : normalizeSubstation data.substation = "Unknown" := by
    rw [h]
    decide
  refine ⟨h1, ?_, ?_, by decide⟩
  · rw [fileBlock_searches_eq env data f, h1]
    decide
  · intro n hn
    rw [fileBlock_creates_sub env data f n hn, h1]

/-- Witness for C10: a concrete request with empty substation queries for
the folder `Unknown`. -/
theorem C10_default_unknown_group_key_witness :
    (fileBlock
      ⟨Except.ok (), Except.ok (some "Sheet1"),
       fun _ => Except.ok [], fun _ => Except.ok "nid",
       fun _ _ => Except.ok "link", Except.ok (), "ts"⟩
      ⟨"", "1", "EQ", "D", "DAI", "R", "S", "SD"⟩
      ⟨"a.pdf", "application/pdf", "/tmp/u10"⟩).searches = ["Unknown"]
    ∧ ("Unknown" : String) ≠ "" :=
  ⟨(C10_default_unknown_group_key _ _ _ rfl).2.1,
   (C10_default_unknown_group_key
      ⟨Except.ok (), Except.ok (some "Sheet1"),
       fun _ => Except.ok [], fun _ => Except.ok "nid",
       fun _ _ => Except.ok "link", Except.ok (), "ts"⟩
      ⟨"", "1", "EQ", "D", "DAI", "R", "S", "SD"⟩
      ⟨"a.pdf", "application/pdf", "/tmp/u10"⟩ rfl).2.2.2⟩
